import Mathlib

/-! rm2fb server: update translation and message dispatch.

A shallow embedding of `src/server/main.cpp`: the function `doUpdate`
(waveform correction and flag heuristics) and the `while (true)` dispatch
loop of `server_main`.

The calls the server makes into its collaborators (the `SwtFB` device sink
and the POSIX named-semaphore API) are recorded, in program order, in a
trace carried by the state `World`.  Diagnostics written to `stderr` and the
code under `#ifdef DEBUG` / `#ifdef DEBUG_DIRTY` are not part of the state.
Values are modelled as mathematical integers.  Where `main.cpp` computes a
value into a C `int` (the width and height of the `XO_t` branch), the result
is reduced to the 32-bit two's complement range by `toInt32`.
-/

namespace Rm2fb

/-! ## Data model -/

/-- Modelled from the spec: the declaration of `mxcfb_rect` is not in
`main.cpp`; the spec (§3, UpdateRegion) gives a rectangle `left, top, width,
height` of non-negative integers in device-pixel units. -/
structure mxcfb_rect where
  top : Nat
  left : Nat
  width : Nat
  height : Nat
deriving DecidableEq, Repr

/-- Modelled from the spec: the declaration of `mxcfb_update_data` is not in
`main.cpp`; the spec (§3, LegacyUpdateDescriptor) gives a region, a signed
integer `waveform_mode`, an integer `update_mode` (0 = partial, 1 = full) and
an integer `update_marker` that is only passed through. -/
structure mxcfb_update_data where
  update_region : mxcfb_rect
  waveform_mode : Int
  update_mode : Int
  update_marker : Int
deriving DecidableEq, Repr

/-- Modelled from the spec: the declaration of `xochitl_data` is not in
`main.cpp`; the spec (§3, LegacyCoordinateUpdate) gives inclusive pixel
bounds `x1, y1, x2, y2`, an integer `waveform` and a bitset `flags`. -/
structure xochitl_data where
  x1 : Int
  y1 : Int
  x2 : Int
  y2 : Int
  waveform : Int
  flags : Int
deriving DecidableEq, Repr

/-- Modelled from the spec: the declaration of `wait_sem_data` is not in
`main.cpp`; the spec (§3, WaitRequest) gives a single field, the name of a
named semaphore. -/
structure wait_sem_data where
  sem_name : String
deriving DecidableEq, Repr

/-- Modelled from the spec: the payload `mdata` of a queue message.  In the
source it is read through one of three views, `update`, `xochitl_update` or
`wait_update`, chosen by the tag; each view is a field here, so a message
carries a value for every view and the code reads the one its tag selects. -/
structure swtfb_mdata where
  update : mxcfb_update_data
  xochitl_update : xochitl_data
  wait_update : wait_sem_data
deriving DecidableEq, Repr

/-- Modelled from the spec: the declaration of `swtfb_update` is not in
`main.cpp`; the spec (§3, UpdateChannel message) gives an explicitly
transmitted tag `mtype` and a payload. -/
structure swtfb_update where
  mtype : Int
  mdata : swtfb_mdata
deriving DecidableEq, Repr

/-- Modelled from the spec: the values of the tags `ipc::UPDATE_t`,
`ipc::XO_t` and `ipc::WAIT_t` are declared outside `main.cpp`, so they are
parameters.  They are labels of one `switch`, hence pairwise distinct. -/
structure MsgTypes where
  UPDATE_t : Int
  XO_t : Int
  WAIT_t : Int
  update_ne_xo : UPDATE_t ≠ XO_t
  update_ne_wait : UPDATE_t ≠ WAIT_t
  xo_ne_wait : XO_t ≠ WAIT_t

/-- The rectangle `QRect(x, y, width, height)` built by `server_main`. -/
structure QRect where
  x : Int
  y : Int
  width : Int
  height : Int
deriving DecidableEq, Repr

/-- One call made by the server into a collaborator: the four `SwtFB`
operations used by `main.cpp`, and the three semaphore calls of the
`WAIT_t` branch. -/
inductive Call where
  | ClearGhosting
  | DrawRaw (left top width height : Nat) (waveform flags : Int)
  | SendUpdate (rect : QRect) (waveform flags : Int)
  | WaitForLastUpdate
  | sem_open (name : String)
  | sem_post (name : String)
  | sem_close (name : String)
deriving DecidableEq, Repr

/-- The state the server acts on.  `trace` lists every call made so far,
oldest first.  `sems` is the system's table of named semaphores (name to
current value, `none` when no semaphore of that name exists).  `refused`
marks the names for which the system rejects `sem_open` (invalid name,
missing permission, ...). -/
structure World where
  trace : List Call
  sems : String → Option Nat
  refused : String → Bool

/-- Record a call at the end of the trace. -/
def World.emit (w : World) (c : Call) : World :=
  { w with trace := w.trace ++ [c] }

/-! ## Device sink (`SwtFB`) -/

/-- Modelled from the spec: `SwtFB::ClearGhosting` (§6, `clearGhosting()`),
defined outside `main.cpp`; the call is recorded. -/
def ClearGhosting (fb : World) : World :=
  fb.emit Call.ClearGhosting

/-- Modelled from the spec: `SwtFB::DrawRaw` (§6, `drawRaw(left, top, width,
height, waveform, flags)`), defined outside `main.cpp`; the call is recorded
with its six arguments. -/
def DrawRaw (fb : World) (left top width height : Nat) (waveform flags : Int) : World :=
  fb.emit (Call.DrawRaw left top width height waveform flags)

/-- Modelled from the spec: `SwtFB::SendUpdate` (§6, `sendUpdate(region,
waveform, flags)`), defined outside `main.cpp`; the call is recorded with its
arguments. -/
def SendUpdate (fb : World) (rect : QRect) (waveform flags : Int) : World :=
  fb.emit (Call.SendUpdate rect waveform flags)

/-- Modelled from the spec: `SwtFB::WaitForLastUpdate` (§6,
`waitForLastUpdate()`), defined outside `main.cpp`; the call is recorded when
it returns. -/
def WaitForLastUpdate (fb : World) : World :=
  fb.emit Call.WaitForLastUpdate

/-! ## `doUpdate` -/

/-- `doUpdate(fb, s)`, `main.cpp` lines 35-98. -/
def doUpdate (fb : World) (s : swtfb_update) : World :=
  let mxcfb_update := s.mdata.update
  let rect := mxcfb_update.update_region
  let waveform := mxcfb_update.waveform_mode
  -- if (waveform > 3 && waveform != 8) { waveform = 3; fb.ClearGhosting(); }
  let (waveform, fb) :=
    if waveform > 3 ∧ waveform ≠ 8 then ((3 : Int), ClearGhosting fb) else (waveform, fb)
  -- if (waveform < 0) { waveform = 3; fb.ClearGhosting(); }
  let (waveform, fb) :=
    if waveform < 0 then ((3 : Int), ClearGhosting fb) else (waveform, fb)
  let update_mode := mxcfb_update.update_mode
  -- auto flags = update_mode & 0x1;
  let flags := Int.land update_mode 1
  let flags :=
    if waveform = 0 ∧ update_mode = 1 then
      Int.lor flags 2
    else if rect.left = 0 ∧ rect.top > 1800 ∧ waveform = 3 ∧ update_mode = 1 then
      Int.lor flags 2
    else
      flags
  -- fast draw
  let flags := if waveform = 1 ∧ update_mode = 0 then 4 else flags
  DrawRaw fb rect.left rect.top rect.width rect.height waveform flags

/-! ## Named semaphores (POSIX) -/

/-- The `oflag` argument of `sem_open`: whether `O_CREAT` and `O_EXCL` are
set. -/
structure OFlag where
  creat : Bool
  excl : Bool
deriving DecidableEq, Repr

/-- The flag `O_CREAT` alone, as `server_main` passes it. -/
def O_CREAT : OFlag :=
  { creat := true, excl := false }

/-- No flag set: open an existing semaphore only. -/
def O_NONE : OFlag :=
  { creat := false, excl := false }

/-- The largest value a semaphore can hold (`SEM_VALUE_MAX`, `INT_MAX` on
Linux). -/
def SEM_VALUE_MAX : Nat := 2147483647

/-- Environment model of POSIX `sem_open(name, oflag, mode, value)`.  The
call is recorded.  It fails (`NULL`, here `none`) when the system refuses the
name, when the semaphore exists and both `O_CREAT` and `O_EXCL` are set, and
when the semaphore does not exist and `O_CREAT` is not set.  It opens an
existing semaphore without changing it (the mode and `value` are then
ignored), and with `O_CREAT` it creates a missing one with the given initial
`value`.  The handle returned is the name. -/
def sem_open (w : World) (name : String) (oflag : OFlag) (_mode value : Nat) :
    World × Option String :=
  let w := w.emit (Call.sem_open name)
  if w.refused name then
    (w, none)
  else
    match w.sems name with
    | some _ => if oflag.creat && oflag.excl then (w, none) else (w, some name)
    | none =>
      if oflag.creat then
        ({ w with sems := fun n => if n = name then some value else w.sems n }, some name)
      else
        (w, none)

/-- Environment model of POSIX `sem_post(sem)`.  The call is recorded.  The
value of the semaphore is incremented by one; at `SEM_VALUE_MAX` the call
fails and leaves the value as it is. -/
def sem_post (w : World) (sem : String) : World :=
  let w := w.emit (Call.sem_post sem)
  match w.sems sem with
  | some v =>
    if v < SEM_VALUE_MAX then
      { w with sems := fun n => if n = sem then some (v + 1) else w.sems n }
    else
      w
  | none => w

/-- Environment model of POSIX `sem_close(sem)`.  The call is recorded; the
handle is released and the named semaphore itself is unaffected. -/
def sem_close (w : World) (sem : String) : World :=
  w.emit (Call.sem_close sem)

/-! ## The dispatch loop of `server_main` -/

/-- The smallest value of a C `int` (32 bits). -/
def INT_MIN : Int := -2147483648

/-- The largest value of a C `int` (32 bits). -/
def INT_MAX : Int := 2147483647

/-- The value a 32-bit two's complement `int` holds after a computation whose
mathematical result is `n`: `n` itself when it lies between `INT_MIN` and
`INT_MAX`, and `n` reduced modulo `2^32` into that range otherwise. -/
def toInt32 (n : Int) : Int :=
  (n + 2147483648) % 4294967296 - 2147483648

/-- The `switch (buf.mtype)` statement of `server_main`, `main.cpp` lines
145-167: what one received message `buf` makes the server do.  In the `XO_t`
branch the subtraction and the addition are `int` operations, each reduced by
`toInt32`.  The `default` branch only writes a diagnostic and falls out of the
`switch`. -/
def server_main_switch (T : MsgTypes) (fb : World) (buf : swtfb_update) : World :=
  if buf.mtype = T.UPDATE_t then
    doUpdate fb buf
  else if buf.mtype = T.XO_t then
    let data := buf.mdata.xochitl_update
    -- int width = data.x2 - data.x1 + 1;
    let width := toInt32 (toInt32 (data.x2 - data.x1) + 1)
    -- int height = data.y2 - data.y1 + 1;
    let height := toInt32 (toInt32 (data.y2 - data.y1) + 1)
    let rect := QRect.mk data.x1 data.y1 width height
    SendUpdate fb rect data.waveform data.flags
  else if buf.mtype = T.WAIT_t then
    let fb := WaitForLastUpdate fb
    -- sem_t* sem = sem_open(buf.mdata.wait_update.sem_name, O_CREAT, 0644, 0);
    let (fb, sem) := sem_open fb buf.mdata.wait_update.sem_name O_CREAT 0o644 0
    match sem with
    | some sem => sem_close (sem_post fb sem) sem
    | none => fb
  else
    fb

/-- Modelled from the spec: `MSGQ.recv()` is declared outside `main.cpp`; the
spec (§6) gives a blocking receive with FIFO ordering.  The `while (true)`
loop of `server_main`, `main.cpp` lines 143-168, is run on the messages the
queue delivers, in order of arrival; when none is left the loop is blocked in
`recv` and the world stays as it is. -/
def server_main_loop (T : MsgTypes) : List swtfb_update → World → World
  | [], fb => fb
  | buf :: rest, fb => server_main_loop T rest (server_main_switch T fb buf)

/-- Whether a call is one of the four Device Sink operations. -/
def Call.isSink : Call → Bool
  | Call.ClearGhosting => true
  | Call.DrawRaw _ _ _ _ _ _ => true
  | Call.SendUpdate _ _ _ => true
  | Call.WaitForLastUpdate => true
  | _ => false

/-- The Device Sink operations performed so far, oldest first. -/
def World.sinkOps (w : World) : List Call :=
  w.trace.filter Call.isSink

/-- The same world with an empty trace: nothing has been called yet. -/
def World.fresh (w : World) : World :=
  { w with trace := [] }

/-- The message `s` with the `waveform_mode` of its descriptor replaced by
`w`; everything else is kept. -/
def swtfb_update.withWaveform (s : swtfb_update) (w : Int) : swtfb_update :=
  { s with mdata := { s.mdata with update := { s.mdata.update with waveform_mode := w } } }

/-- The message `s` with the `update_marker` of its descriptor replaced by
`m`; everything else is kept. -/
def swtfb_update.withMarker (s : swtfb_update) (m : Int) : swtfb_update :=
  { s with mdata := { s.mdata with update := { s.mdata.update with update_marker := m } } }

/-! ## Sample inputs -/

/-- A world in which nothing has been called yet, no named semaphore exists
and no name is refused. -/
def World.boot : World :=
  { trace := [], sems := fun _ => none, refused := fun _ => false }

/-- A queue message with tag `mtype` whose `update` view is `d`; the other
two views are filled with zeros and the empty name. -/
def updateMsg (mtype : Int) (d : mxcfb_update_data) : swtfb_update :=
  { mtype := mtype
    mdata := { update := d, xochitl_update := ⟨0, 0, 0, 0, 0, 0⟩, wait_update := ⟨""⟩ } }

/-- Tag values used in the examples. -/
def sampleTypes : MsgTypes :=
  { UPDATE_t := 2, XO_t := 3, WAIT_t := 4
    update_ne_xo := by decide, update_ne_wait := by decide, xo_ne_wait := by decide }

/-- A queue message with tag `mtype` whose `xochitl_update` view is `d`. -/
def xoMsg (mtype : Int) (d : xochitl_data) : swtfb_update :=
  { mtype := mtype
    mdata := { update := ⟨⟨0, 0, 0, 0⟩, 0, 0, 0⟩, xochitl_update := d, wait_update := ⟨""⟩ } }

/-- A queue message with tag `mtype` whose `wait_update` view names `name`. -/
def waitMsg (mtype : Int) (name : String) : swtfb_update :=
  { mtype := mtype
    mdata := { update := ⟨⟨0, 0, 0, 0⟩, 0, 0, 0⟩, xochitl_update := ⟨0, 0, 0, 0, 0, 0⟩,
               wait_update := ⟨name⟩ } }

/-! ## Bitwise helpers -/

theorem land_zero_right (m : Int) : Int.land m 0 = 0 := by
  cases m with
  | ofNat n => show ((n &&& 0 : Nat) : Int) = 0; simp
  | negSucc n => show ((Nat.ldiff 0 n : Nat) : Int) = 0; simp [Nat.ldiff]

/-- The C expression `m & 0x1` is the low bit of `m`. -/
theorem land_one_eq_emod (m : Int) : Int.land m 1 = m % 2 := by
  have h := Int.land_bit (Int.bodd m) (Int.div2 m) true 0
  have e1 : Int.bit true 0 = 1 := by decide
  rw [Int.bit_decomp, e1, land_zero_right] at h
  rw [h]
  have hm := Int.bodd_add_div2 m
  cases hb : Int.bodd m <;> simp [Int.bit_val, hb] at hm ⊢ <;> omega

/-! ## `doUpdate`: waveform correction and flags -/

/-- C1: for a descriptor whose `waveform_mode` is `w`: if `w` is one of
0, 1, 2, 3, 8 then the only call `doUpdate` makes is `DrawRaw` with waveform
`w` (no `ClearGhosting`); for every other `w` (then `w > 3` and `w ≠ 8`, or
`w < 0`) it calls `ClearGhosting` exactly once and then `DrawRaw` with
waveform 3. -/
theorem doUpdate_waveform (fb : World) (s : swtfb_update) :
    (s.mdata.update.waveform_mode ∈ [0, 1, 2, 3, 8] →
      ∃ flags, (doUpdate fb s).trace = fb.trace ++
        [Call.DrawRaw s.mdata.update.update_region.left s.mdata.update.update_region.top
          s.mdata.update.update_region.width s.mdata.update.update_region.height
          s.mdata.update.waveform_mode flags]) ∧
    (s.mdata.update.waveform_mode ∉ [0, 1, 2, 3, 8] →
      ((s.mdata.update.waveform_mode > 3 ∧ s.mdata.update.waveform_mode ≠ 8) ∨
        s.mdata.update.waveform_mode < 0) ∧
      ∃ flags, (doUpdate fb s).trace = fb.trace ++
        [Call.ClearGhosting,
         Call.DrawRaw s.mdata.update.update_region.left s.mdata.update.update_region.top
          s.mdata.update.update_region.width s.mdata.update.update_region.height
          3 flags]) := by
  constructor
  · intro h
    have h1 : ¬ (s.mdata.update.waveform_mode > 3 ∧ s.mdata.update.waveform_mode ≠ 8) := by
      simp at h; omega
    have h2 : ¬ s.mdata.update.waveform_mode < 0 := by
      simp at h; omega
    simp [doUpdate, DrawRaw, World.emit, h1, h2]
  · intro h
    have h0 : (s.mdata.update.waveform_mode > 3 ∧ s.mdata.update.waveform_mode ≠ 8) ∨
        s.mdata.update.waveform_mode < 0 := by
      simp at h; omega
    refine ⟨h0, ?_⟩
    rcases h0 with h1 | h2
    · simp [doUpdate, DrawRaw, ClearGhosting, World.emit, h1]
    · have h1 : ¬ (s.mdata.update.waveform_mode > 3 ∧ s.mdata.update.waveform_mode ≠ 8) := by
        omega
      simp [doUpdate, DrawRaw, ClearGhosting, World.emit, h1, h2]

/-- Witness for C1: waveform 8 is passed through without `ClearGhosting`;
waveform 7 and waveform -1 are each replaced by 3 after one
`ClearGhosting`. -/
theorem doUpdate_waveform_witness :
    (∃ flags, (doUpdate World.boot (updateMsg 2 ⟨⟨0, 0, 100, 50⟩, 8, 0, 0⟩)).trace =
        [Call.DrawRaw 0 0 100 50 8 flags]) ∧
    (∃ flags, (doUpdate World.boot (updateMsg 2 ⟨⟨0, 0, 100, 50⟩, 7, 0, 0⟩)).trace =
        [Call.ClearGhosting, Call.DrawRaw 0 0 100 50 3 flags]) ∧
    (∃ flags, (doUpdate World.boot (updateMsg 2 ⟨⟨0, 0, 100, 50⟩, -1, 0, 0⟩)).trace =
        [Call.ClearGhosting, Call.DrawRaw 0 0 100 50 3 flags]) :=
  ⟨(doUpdate_waveform World.boot (updateMsg 2 ⟨⟨0, 0, 100, 50⟩, 8, 0, 0⟩)).1 (by decide),
   ((doUpdate_waveform World.boot (updateMsg 2 ⟨⟨0, 0, 100, 50⟩, 7, 0, 0⟩)).2 (by decide)).2,
   ((doUpdate_waveform World.boot (updateMsg 2 ⟨⟨0, 0, 100, 50⟩, -1, 0, 0⟩)).2 (by decide)).2⟩

/-- C2: for every descriptor with `waveform_mode = 1` and `update_mode = 0`,
whatever its region and `update_marker`, the only call `doUpdate` makes is
`DrawRaw` on the descriptor's region with waveform 1 and flags exactly 4. -/
theorem doUpdate_fast_draw (fb : World) (s : swtfb_update)
    (hw : s.mdata.update.waveform_mode = 1) (hu : s.mdata.update.update_mode = 0) :
    (doUpdate fb s).trace = fb.trace ++
      [Call.DrawRaw s.mdata.update.update_region.left s.mdata.update.update_region.top
        s.mdata.update.update_region.width s.mdata.update.update_region.height 1 4] := by
  simp [doUpdate, DrawRaw, World.emit, hw, hu]

/-- Witness for C2: region (0,0,100,50), waveform 1, update mode 0 gives
`DrawRaw(0, 0, 100, 50, 1, 4)`. -/
theorem doUpdate_fast_draw_witness :
    (doUpdate World.boot (updateMsg 2 ⟨⟨0, 0, 100, 50⟩, 1, 0, 0⟩)).trace =
      [Call.DrawRaw 0 0 100 50 1 4] :=
  doUpdate_fast_draw World.boot (updateMsg 2 ⟨⟨0, 0, 100, 50⟩, 1, 0, 0⟩) rfl rfl

/-- C3: for every descriptor with `waveform_mode = 3` and `update_mode = 1`
(any width and height): with `left = 0` and `top = 1801` the flags passed to
`DrawRaw` have bit1 (value 2) set; with `top = 1800` instead, or with
`left = 1` instead, bit1 is not set. -/
theorem doUpdate_bottom_sync (fb : World) (s : swtfb_update)
    (hw : s.mdata.update.waveform_mode = 3) (hu : s.mdata.update.update_mode = 1) :
    (s.mdata.update.update_region.left = 0 ∧ s.mdata.update.update_region.top = 1801 →
      ∃ flags, (doUpdate fb s).trace = fb.trace ++
        [Call.DrawRaw 0 1801 s.mdata.update.update_region.width
          s.mdata.update.update_region.height 3 flags] ∧ Int.land flags 2 = 2) ∧
    (s.mdata.update.update_region.left = 0 ∧ s.mdata.update.update_region.top = 1800 →
      ∃ flags, (doUpdate fb s).trace = fb.trace ++
        [Call.DrawRaw 0 1800 s.mdata.update.update_region.width
          s.mdata.update.update_region.height 3 flags] ∧ Int.land flags 2 = 0) ∧
    (s.mdata.update.update_region.left = 1 ∧ s.mdata.update.update_region.top = 1801 →
      ∃ flags, (doUpdate fb s).trace = fb.trace ++
        [Call.DrawRaw 1 1801 s.mdata.update.update_region.width
          s.mdata.update.update_region.height 3 flags] ∧ Int.land flags 2 = 0) := by
  refine ⟨?_, ?_, ?_⟩
  · rintro ⟨hl, ht⟩
    refine ⟨3, ?_, by decide⟩
    simp [doUpdate, DrawRaw, World.emit, hw, hu, hl, ht]
    decide
  · rintro ⟨hl, ht⟩
    refine ⟨1, ?_, by decide⟩
    simp [doUpdate, DrawRaw, World.emit, hw, hu, hl, ht]
    decide
  · rintro ⟨hl, ht⟩
    refine ⟨1, ?_, by decide⟩
    simp [doUpdate, DrawRaw, World.emit, hw, hu, hl, ht]
    decide

/-- Witness for C3: width 1404 and height 10 at `(left, top)` = (0, 1801),
(0, 1800) and (1, 1801). -/
theorem doUpdate_bottom_sync_witness :
    (∃ flags, (doUpdate World.boot (updateMsg 2
        ⟨{ top := 1801, left := 0, width := 1404, height := 10 }, 3, 1, 0⟩)).trace =
        [Call.DrawRaw 0 1801 1404 10 3 flags] ∧ Int.land flags 2 = 2) ∧
    (∃ flags, (doUpdate World.boot (updateMsg 2
        ⟨{ top := 1800, left := 0, width := 1404, height := 10 }, 3, 1, 0⟩)).trace =
        [Call.DrawRaw 0 1800 1404 10 3 flags] ∧ Int.land flags 2 = 0) ∧
    (∃ flags, (doUpdate World.boot (updateMsg 2
        ⟨{ top := 1801, left := 1, width := 1404, height := 10 }, 3, 1, 0⟩)).trace =
        [Call.DrawRaw 1 1801 1404 10 3 flags] ∧ Int.land flags 2 = 0) :=
  ⟨(doUpdate_bottom_sync World.boot (updateMsg 2
      ⟨{ top := 1801, left := 0, width := 1404, height := 10 }, 3, 1, 0⟩) rfl rfl).1 ⟨rfl, rfl⟩,
   (doUpdate_bottom_sync World.boot (updateMsg 2
      ⟨{ top := 1800, left := 0, width := 1404, height := 10 }, 3, 1, 0⟩) rfl rfl).2.1 ⟨rfl, rfl⟩,
   (doUpdate_bottom_sync World.boot (updateMsg 2
      ⟨{ top := 1801, left := 1, width := 1404, height := 10 }, 3, 1, 0⟩) rfl rfl).2.2 ⟨rfl, rfl⟩⟩

/-- C4: for every descriptor with `update_mode = 1` and `waveform_mode = 0`,
whatever its region, the flags passed to `DrawRaw` have bit1 (value 2) set. -/
theorem doUpdate_init_sync (fb : World) (s : swtfb_update)
    (hu : s.mdata.update.update_mode = 1) (hw : s.mdata.update.waveform_mode = 0) :
    ∃ flags, (doUpdate fb s).trace = fb.trace ++
      [Call.DrawRaw s.mdata.update.update_region.left s.mdata.update.update_region.top
        s.mdata.update.update_region.width s.mdata.update.update_region.height 0 flags] ∧
      Int.land flags 2 = 2 := by
  refine ⟨3, ?_, by decide⟩
  simp [doUpdate, DrawRaw, World.emit, hw, hu]
  decide

/-- Witness for C4: a full update of region (5, 7, 20, 30) with waveform 0. -/
theorem doUpdate_init_sync_witness :
    ∃ flags, (doUpdate World.boot (updateMsg 2
        ⟨{ top := 7, left := 5, width := 20, height := 30 }, 0, 1, 0⟩)).trace =
      [Call.DrawRaw 5 7 20 30 0 flags] ∧ Int.land flags 2 = 2 :=
  doUpdate_init_sync World.boot (updateMsg 2
    ⟨{ top := 7, left := 5, width := 20, height := 30 }, 0, 1, 0⟩) rfl rfl

/-- C5, as stated, fails: for region (left 0, top 1850, width 1404,
height 10), waveform 3, update mode 1 the flags passed to `DrawRaw` are 3,
so no `DrawRaw` call with flags 2 is made. -/
theorem doUpdate_scenario_flags_not_two :
    (doUpdate World.boot (updateMsg 2
        ⟨{ top := 1850, left := 0, width := 1404, height := 10 }, 3, 1, 0⟩)).trace =
      [Call.DrawRaw 0 1850 1404 10 3 3] ∧
    Call.DrawRaw 0 1850 1404 10 3 2 ∉ (doUpdate World.boot (updateMsg 2
        ⟨{ top := 1850, left := 0, width := 1404, height := 10 }, 3, 1, 0⟩)).trace := by
  decide

/-- C5, amended: for the descriptor with region (left 0, top 1850,
width 1404, height 10), waveform 3 and update mode 1, whatever the tag, the
marker and the other views of the message, the only call `doUpdate` makes is
`DrawRaw(0, 1850, 1404, 10, 3, 3)`: waveform 3 and flags `0b11` (bit0 from
`update_mode & 1`, bit1 from the bottom-of-screen heuristic). -/
theorem doUpdate_scenario_flags_three (fb : World) (mtype marker : Int)
    (xo : xochitl_data) (wt : wait_sem_data) :
    (doUpdate fb
        { mtype := mtype
          mdata := { update := ⟨{ top := 1850, left := 0, width := 1404, height := 10 },
                                3, 1, marker⟩
                     xochitl_update := xo
                     wait_update := wt } }).trace =
      fb.trace ++ [Call.DrawRaw 0 1850 1404 10 3 3] := by
  simp [doUpdate, DrawRaw, World.emit]
  decide

/-! ## Frame lemmas -/

theorem doUpdate_frame (fb u : World) (s : swtfb_update) :
    (doUpdate fb s).trace = fb.trace ++ (doUpdate u.fresh s).trace ∧
    (doUpdate fb s).sems = fb.sems ∧ (doUpdate fb s).refused = fb.refused ∧
    ∀ c ∈ (doUpdate u.fresh s).trace,
      c = Call.ClearGhosting ∨ ∃ l t w h wf fl, c = Call.DrawRaw l t w h wf fl := by
  simp only [doUpdate, DrawRaw, ClearGhosting, World.emit, World.fresh]
  split_ifs <;> simp

theorem switch_update (T : MsgTypes) (fb : World) (buf : swtfb_update)
    (h : buf.mtype = T.UPDATE_t) : server_main_switch T fb buf = doUpdate fb buf := by
  simp [server_main_switch, h]

/-- A value in the `int` range is stored unchanged. -/
theorem toInt32_of_range (n : Int) (hlo : INT_MIN ≤ n) (hhi : n ≤ INT_MAX) :
    toInt32 n = n := by
  simp only [INT_MIN, INT_MAX] at hlo hhi
  simp only [toInt32]
  omega

/-- Reducing after the subtraction and again after the addition gives the
same `int` as reducing the whole sum once. -/
theorem toInt32_add_one (n : Int) : toInt32 (toInt32 n + 1) = toInt32 (n + 1) := by
  simp only [toInt32]
  omega

theorem switch_xo (T : MsgTypes) (fb : World) (buf : swtfb_update)
    (h : buf.mtype = T.XO_t) :
    server_main_switch T fb buf =
      fb.emit (Call.SendUpdate
        ⟨buf.mdata.xochitl_update.x1, buf.mdata.xochitl_update.y1,
         toInt32 (buf.mdata.xochitl_update.x2 - buf.mdata.xochitl_update.x1 + 1),
         toInt32 (buf.mdata.xochitl_update.y2 - buf.mdata.xochitl_update.y1 + 1)⟩
        buf.mdata.xochitl_update.waveform buf.mdata.xochitl_update.flags) := by
  have h1 : ¬ T.XO_t = T.UPDATE_t := fun e => T.update_ne_xo e.symm
  simp [server_main_switch, h, h1, SendUpdate, toInt32_add_one]

theorem switch_wait_trace (T : MsgTypes) (fb : World) (buf : swtfb_update)
    (h : buf.mtype = T.WAIT_t) :
    (server_main_switch T fb buf).trace = fb.trace ++
      (if fb.refused buf.mdata.wait_update.sem_name then
        [Call.WaitForLastUpdate, Call.sem_open buf.mdata.wait_update.sem_name]
      else
        [Call.WaitForLastUpdate, Call.sem_open buf.mdata.wait_update.sem_name,
         Call.sem_post buf.mdata.wait_update.sem_name,
         Call.sem_close buf.mdata.wait_update.sem_name]) ∧
    (server_main_switch T fb buf).refused = fb.refused := by
  have h1 : ¬ T.WAIT_t = T.UPDATE_t := fun e => T.update_ne_wait e.symm
  have h2 : ¬ T.WAIT_t = T.XO_t := fun e => T.xo_ne_wait e.symm
  simp only [server_main_switch, h, h1, h2, if_false, if_true, WaitForLastUpdate, sem_open,
    World.emit, O_CREAT]
  cases hr : fb.refused buf.mdata.wait_update.sem_name
  · cases hs : fb.sems buf.mdata.wait_update.sem_name
    · simp [sem_post, sem_close, World.emit, hr, hs, SEM_VALUE_MAX]
    · simp [sem_post, sem_close, World.emit, hr, hs]
      split_ifs <;> simp
  · simp [hr]

theorem switch_unknown (T : MsgTypes) (fb : World) (buf : swtfb_update)
    (hu : buf.mtype ≠ T.UPDATE_t) (hx : buf.mtype ≠ T.XO_t) (hw : buf.mtype ≠ T.WAIT_t) :
    server_main_switch T fb buf = fb := by
  simp [server_main_switch, hu, hx, hw]

theorem switch_sinkOps (T : MsgTypes) (fb u : World) (buf : swtfb_update) :
    (server_main_switch T fb buf).sinkOps =
      fb.sinkOps ++ (server_main_switch T u.fresh buf).sinkOps := by
  by_cases hu : buf.mtype = T.UPDATE_t
  · rw [switch_update T fb buf hu, switch_update T u.fresh buf hu]
    simp only [World.sinkOps]
    rw [(doUpdate_frame fb u buf).1, List.filter_append]
  · by_cases hx : buf.mtype = T.XO_t
    · rw [switch_xo T fb buf hx, switch_xo T u.fresh buf hx]
      simp [World.sinkOps, World.emit, World.fresh]
    · by_cases hw : buf.mtype = T.WAIT_t
      · simp only [World.sinkOps]
        rw [(switch_wait_trace T fb buf hw).1, (switch_wait_trace T u.fresh buf hw).1]
        simp only [World.fresh, List.filter_append, List.nil_append]
        split_ifs <;> simp [Call.isSink, List.filter]
      · rw [switch_unknown T fb buf hu hx hw, switch_unknown T u.fresh buf hu hx hw]
        simp [World.sinkOps, World.fresh]

theorem loop_sinkOps (T : MsgTypes) (u : World) (msgs : List swtfb_update) :
    ∀ fb : World, (server_main_loop T msgs fb).sinkOps =
      fb.sinkOps ++ msgs.flatMap (fun m => (server_main_loop T [m] u.fresh).sinkOps) := by
  induction msgs with
  | nil => intro fb; simp [server_main_loop]
  | cons m rest ih =>
    intro fb
    simp only [server_main_loop, List.flatMap_cons]
    rw [ih, switch_sinkOps T fb u m, List.append_assoc]
    rfl

/-! ## The dispatch loop -/

/-- C6: for every finite sequence of messages delivered by the queue, the
Device Sink operations (`ClearGhosting`, `DrawRaw`, `SendUpdate`,
`WaitForLastUpdate`) performed by the dispatch loop are those already
performed, followed by the concatenation, in queue order, of the Device Sink
operations each message causes when it is processed alone: nothing is
dropped, repeated or reordered. -/
theorem server_main_loop_sink_order (T : MsgTypes) (msgs : List swtfb_update) (fb : World) :
    (server_main_loop T msgs fb).sinkOps =
      fb.sinkOps ++ msgs.flatMap (fun m => (server_main_loop T [m] fb.fresh).sinkOps) :=
  loop_sinkOps T fb msgs fb

/-- C7: for update messages `M1`, `M2` (tag `UPDATE_t` or `XO_t`) and a wait
request `W` whose semaphore can be opened, processing `[M1, W, M2]` performs
the calls of `M1`, then one `WaitForLastUpdate`, then the open, one
`sem_post` and the close of the semaphore named in `W`, then the calls of
`M2`; the calls of `M1` and of `M2` are `ClearGhosting`, `DrawRaw` and
`SendUpdate` calls only, so there is exactly one `WaitForLastUpdate` and
exactly one `sem_post`, in that order, between them. -/
theorem server_main_loop_wait_barrier (T : MsgTypes) (fb : World) (M1 W M2 : swtfb_update)
    (h1 : M1.mtype = T.UPDATE_t ∨ M1.mtype = T.XO_t)
    (hW : W.mtype = T.WAIT_t)
    (h2 : M2.mtype = T.UPDATE_t ∨ M2.mtype = T.XO_t)
    (hopen : fb.refused W.mdata.wait_update.sem_name = false) :
    (server_main_loop T [M1, W, M2] fb).trace =
      fb.trace ++ (server_main_loop T [M1] fb.fresh).trace ++
        [Call.WaitForLastUpdate,
         Call.sem_open W.mdata.wait_update.sem_name,
         Call.sem_post W.mdata.wait_update.sem_name,
         Call.sem_close W.mdata.wait_update.sem_name] ++
        (server_main_loop T [M2] fb.fresh).trace ∧
    ∀ c ∈ (server_main_loop T [M1] fb.fresh).trace ++ (server_main_loop T [M2] fb.fresh).trace,
      c = Call.ClearGhosting ∨ (∃ l t w h wf fl, c = Call.DrawRaw l t w h wf fl) ∨
        ∃ r wf fl, c = Call.SendUpdate r wf fl := by
  have key : ∀ (M : swtfb_update), (M.mtype = T.UPDATE_t ∨ M.mtype = T.XO_t) → ∀ g : World,
      (server_main_switch T g M).trace = g.trace ++ (server_main_switch T fb.fresh M).trace ∧
      (server_main_switch T g M).refused = g.refused ∧
      ∀ c ∈ (server_main_switch T fb.fresh M).trace,
        c = Call.ClearGhosting ∨ (∃ l t w h wf fl, c = Call.DrawRaw l t w h wf fl) ∨
          ∃ r wf fl, c = Call.SendUpdate r wf fl := by
    intro M hM g
    rcases hM with hM | hM
    · rw [switch_update T g M hM, switch_update T fb.fresh M hM]
      obtain ⟨a, _, c, d⟩ := doUpdate_frame g fb M
      refine ⟨a, c, ?_⟩
      intro x hx
      rcases d x hx with e | e
      · exact Or.inl e
      · exact Or.inr (Or.inl e)
    · rw [switch_xo T g M hM, switch_xo T fb.fresh M hM]
      simp [World.emit, World.fresh]
  obtain ⟨a1, r1, c1⟩ := key M1 h1 fb
  have hopen1 : (server_main_switch T fb M1).refused W.mdata.wait_update.sem_name = false := by
    rw [r1]; exact hopen
  obtain ⟨aW, rW⟩ := switch_wait_trace T (server_main_switch T fb M1) W hW
  obtain ⟨a2, _, c2⟩ := key M2 h2 (server_main_switch T (server_main_switch T fb M1) W)
  constructor
  · simp only [server_main_loop]
    rw [a2, aW, a1, hopen1]
    simp
  · intro c hc
    simp only [server_main_loop, List.mem_append] at hc
    rcases hc with hc | hc
    · exact c1 c hc
    · exact c2 c hc

/-- Witness for C7: a corrected region update, a wait on `/done`, then a
legacy-coordinate update. -/
theorem server_main_loop_wait_barrier_witness :
    (server_main_loop sampleTypes
        [updateMsg 2 ⟨⟨0, 0, 100, 50⟩, 7, 0, 0⟩, waitMsg 4 "/done",
         xoMsg 3 ⟨1, 2, 10, 20, 7, 5⟩] World.boot).trace =
      [Call.ClearGhosting, Call.DrawRaw 0 0 100 50 3 0,
       Call.WaitForLastUpdate, Call.sem_open "/done", Call.sem_post "/done",
       Call.sem_close "/done",
       Call.SendUpdate ⟨1, 2, 10, 19⟩ 7 5] :=
  (server_main_loop_wait_barrier sampleTypes World.boot
    (updateMsg 2 ⟨⟨0, 0, 100, 50⟩, 7, 0, 0⟩) (waitMsg 4 "/done")
    (xoMsg 3 ⟨1, 2, 10, 20, 7, 5⟩) (Or.inl rfl) rfl (Or.inr rfl) rfl).1


/-- C8, as stated, fails: in a world where no semaphore `/done` exists, the
wait request naming `/done` is handled by opening it with `O_CREAT`; the open
succeeds, and afterwards `/done` exists with count 1 and `sem_post` has been
called on it. -/
theorem server_main_wait_creates_semaphore :
    World.boot.sems "/done" = none ∧
    (server_main_switch sampleTypes World.boot (waitMsg 4 "/done")).sems "/done" = some 1 ∧
    (server_main_switch sampleTypes World.boot (waitMsg 4 "/done")).trace =
      [Call.WaitForLastUpdate, Call.sem_open "/done", Call.sem_post "/done",
       Call.sem_close "/done"] := by
  decide

/-- C8, amended: the handler opens the semaphore with `O_CREAT`.  For every
wait request whose name names no existing semaphore: if the open succeeds,
the semaphore has been created and posted once (it ends with count 1, and
every other named semaphore is unchanged); if the open fails, the failure is
swallowed: `sem_post` is not called and the table of named semaphores and
their counts is unchanged. -/
theorem server_main_wait_missing_semaphore (T : MsgTypes) (fb : World) (buf : swtfb_update)
    (hW : buf.mtype = T.WAIT_t) (hnone : fb.sems buf.mdata.wait_update.sem_name = none) :
    (fb.refused buf.mdata.wait_update.sem_name = false →
      (server_main_switch T fb buf).trace = fb.trace ++
        [Call.WaitForLastUpdate, Call.sem_open buf.mdata.wait_update.sem_name,
         Call.sem_post buf.mdata.wait_update.sem_name,
         Call.sem_close buf.mdata.wait_update.sem_name] ∧
      (server_main_switch T fb buf).sems buf.mdata.wait_update.sem_name = some 1 ∧
      ∀ n, n ≠ buf.mdata.wait_update.sem_name →
        (server_main_switch T fb buf).sems n = fb.sems n) ∧
    (fb.refused buf.mdata.wait_update.sem_name = true →
      (server_main_switch T fb buf).trace = fb.trace ++
        [Call.WaitForLastUpdate, Call.sem_open buf.mdata.wait_update.sem_name] ∧
      (server_main_switch T fb buf).sems = fb.sems) := by
  have h1 : ¬ T.WAIT_t = T.UPDATE_t := fun e => T.update_ne_wait e.symm
  have h2 : ¬ T.WAIT_t = T.XO_t := fun e => T.xo_ne_wait e.symm
  constructor
  · intro hr
    simp only [server_main_switch, hW, h1, h2, if_false, if_true, WaitForLastUpdate, sem_open,
      World.emit, O_CREAT, hr, hnone]
    simp only [sem_post, sem_close, World.emit, if_true, SEM_VALUE_MAX]
    refine ⟨by simp, by simp, ?_⟩
    intro n hn
    simp [hn]
  · intro hr
    simp [server_main_switch, hW, h1, h2, WaitForLastUpdate, sem_open, World.emit, hr]

/-- Witness for C8 (amended): with tag values 2, 3, 4 and no semaphore in the
system, a wait on `/done` leaves `/done` with count 1. -/
theorem server_main_wait_missing_semaphore_witness :
    (server_main_switch sampleTypes World.boot (waitMsg 4 "/done")).sems "/done" = some 1 :=
  ((server_main_wait_missing_semaphore sampleTypes World.boot (waitMsg 4 "/done") rfl rfl).1
    rfl).2.1

/-- C9, as stated, fails: for the legacy-coordinate message with `x1 = 0`,
`x2 = 2147483647` (and `y1 = y2 = 0`, waveform 7, flags 5) the width
`x2 - x1 + 1` is 2147483648, which a C `int` cannot hold; the one `SendUpdate`
call receives width -2147483648, so it is not the call with the rectangle
`(x1, y1, x2 - x1 + 1, y2 - y1 + 1)`. -/
theorem server_main_xo_width_wraps :
    (server_main_loop sampleTypes [xoMsg 3 ⟨0, 0, 2147483647, 0, 7, 5⟩] World.boot).trace =
      [Call.SendUpdate { x := 0, y := 0, width := -2147483648, height := 1 } 7 5] ∧
    (server_main_loop sampleTypes [xoMsg 3 ⟨0, 0, 2147483647, 0, 7, 5⟩] World.boot).trace ≠
      [Call.SendUpdate { x := 0, y := 0, width := 2147483647 - 0 + 1, height := 0 - 0 + 1 }
        7 5] := by
  decide

/-- C9, amended: for every legacy-coordinate (`XO_t`) message with bounds
`x1, y1, x2, y2` whose `x2 - x1 + 1` and `y2 - y1 + 1` are representable as a
C `int`, the only call the dispatch loop makes for it is one `SendUpdate`
with the rectangle `(x1, y1, x2 - x1 + 1, y2 - y1 + 1)` and the message's
waveform and flags unchanged: no `DrawRaw`, no `ClearGhosting`, and the
semaphores are untouched. -/
theorem server_main_xo_passthrough (T : MsgTypes) (fb : World) (buf : swtfb_update)
    (hX : buf.mtype = T.XO_t)
    (hwlo : INT_MIN ≤ buf.mdata.xochitl_update.x2 - buf.mdata.xochitl_update.x1 + 1)
    (hwhi : buf.mdata.xochitl_update.x2 - buf.mdata.xochitl_update.x1 + 1 ≤ INT_MAX)
    (hhlo : INT_MIN ≤ buf.mdata.xochitl_update.y2 - buf.mdata.xochitl_update.y1 + 1)
    (hhhi : buf.mdata.xochitl_update.y2 - buf.mdata.xochitl_update.y1 + 1 ≤ INT_MAX) :
    (server_main_loop T [buf] fb).trace = fb.trace ++
      [Call.SendUpdate
        { x := buf.mdata.xochitl_update.x1, y := buf.mdata.xochitl_update.y1,
          width := buf.mdata.xochitl_update.x2 - buf.mdata.xochitl_update.x1 + 1,
          height := buf.mdata.xochitl_update.y2 - buf.mdata.xochitl_update.y1 + 1 }
        buf.mdata.xochitl_update.waveform buf.mdata.xochitl_update.flags] ∧
    (server_main_loop T [buf] fb).sems = fb.sems := by
  simp only [server_main_loop]
  rw [switch_xo T fb buf hX, toInt32_of_range _ hwlo hwhi, toInt32_of_range _ hhlo hhhi]
  simp [World.emit]

/-- Witness for C9 (amended): bounds (10, 20)-(109, 69) with waveform 7 and
flags 5 are sent as a 100 by 50 rectangle at (10, 20), waveform 7 forwarded
as 7. -/
theorem server_main_xo_passthrough_witness :
    (server_main_loop sampleTypes [xoMsg 3 ⟨10, 20, 109, 69, 7, 5⟩] World.boot).trace =
      [Call.SendUpdate { x := 10, y := 20, width := 100, height := 50 } 7 5] :=
  (server_main_xo_passthrough sampleTypes World.boot (xoMsg 3 ⟨10, 20, 109, 69, 7, 5⟩) rfl
    (by decide) (by decide) (by decide) (by decide)).1

/-- C10: a message whose tag is none of `UPDATE_t`, `XO_t`, `WAIT_t` leaves
the world as it is (no Device Sink call, no semaphore call, no change to the
semaphores), and the loop goes on: for every message `V`, processing
`[unknown, V]` ends in the same world as processing `[V]` alone. -/
theorem server_main_unknown_tag (T : MsgTypes) (fb : World) (buf : swtfb_update)
    (hu : buf.mtype ≠ T.UPDATE_t) (hx : buf.mtype ≠ T.XO_t) (hw : buf.mtype ≠ T.WAIT_t) :
    server_main_loop T [buf] fb = fb ∧
    ∀ V : swtfb_update, server_main_loop T [buf, V] fb = server_main_loop T [V] fb := by
  constructor
  · simp only [server_main_loop]
    exact switch_unknown T fb buf hu hx hw
  · intro V
    simp only [server_main_loop]
    rw [switch_unknown T fb buf hu hx hw]

/-- Witness for C10: with tag values 2, 3, 4, a message tagged 9 followed by
a fast-draw region update performs exactly the one `DrawRaw` of the
update. -/
theorem server_main_unknown_tag_witness :
    (server_main_loop sampleTypes
        [waitMsg 9 "/done", updateMsg 2 ⟨⟨0, 0, 100, 50⟩, 1, 0, 0⟩] World.boot).trace =
      [Call.DrawRaw 0 0 100 50 1 4] :=
  congrArg World.trace
    ((server_main_unknown_tag sampleTypes World.boot (waitMsg 9 "/done")
      (by decide) (by decide) (by decide)).2 (updateMsg 2 ⟨⟨0, 0, 100, 50⟩, 1, 0, 0⟩))

/-! ## `doUpdate`: the call it makes, in closed form -/

/-- The calls `doUpdate` adds to the trace, written out: an optional
`ClearGhosting`, then one `DrawRaw` on the descriptor's region with the
corrected waveform and the computed flags. -/
theorem doUpdate_trace (fb : World) (s : swtfb_update) :
    (doUpdate fb s).trace = fb.trace ++
      (if (s.mdata.update.waveform_mode > 3 ∧ s.mdata.update.waveform_mode ≠ 8) ∨
          s.mdata.update.waveform_mode < 0 then [Call.ClearGhosting] else []) ++
      [Call.DrawRaw s.mdata.update.update_region.left s.mdata.update.update_region.top
        s.mdata.update.update_region.width s.mdata.update.update_region.height
        (if (s.mdata.update.waveform_mode > 3 ∧ s.mdata.update.waveform_mode ≠ 8) ∨
          s.mdata.update.waveform_mode < 0 then 3 else s.mdata.update.waveform_mode)
        (if (if (s.mdata.update.waveform_mode > 3 ∧ s.mdata.update.waveform_mode ≠ 8) ∨
                s.mdata.update.waveform_mode < 0 then 3 else s.mdata.update.waveform_mode) = 1 ∧
              s.mdata.update.update_mode = 0 then 4
         else if (if (s.mdata.update.waveform_mode > 3 ∧ s.mdata.update.waveform_mode ≠ 8) ∨
                s.mdata.update.waveform_mode < 0 then 3 else s.mdata.update.waveform_mode) = 0 ∧
              s.mdata.update.update_mode = 1 then 3
         else if s.mdata.update.update_region.left = 0 ∧
              s.mdata.update.update_region.top > 1800 ∧
              (if (s.mdata.update.waveform_mode > 3 ∧ s.mdata.update.waveform_mode ≠ 8) ∨
                s.mdata.update.waveform_mode < 0 then 3 else s.mdata.update.waveform_mode) = 3 ∧
              s.mdata.update.update_mode = 1 then 3
         else s.mdata.update.update_mode % 2)] := by
  have e : Int.lor 1 2 = 3 := by decide
  by_cases h1 : s.mdata.update.waveform_mode > 3 ∧ s.mdata.update.waveform_mode ≠ 8
  · simp only [doUpdate, DrawRaw, ClearGhosting, World.emit, land_one_eq_emod, h1, if_true,
      true_or]
    split_ifs <;> simp_all
  · by_cases h2 : s.mdata.update.waveform_mode < 0
    · simp only [doUpdate, DrawRaw, ClearGhosting, World.emit, land_one_eq_emod, h1, h2,
        if_true, if_false, or_true]
      split_ifs <;> simp_all
    · simp only [doUpdate, DrawRaw, ClearGhosting, World.emit, land_one_eq_emod, h1, h2,
        if_false, or_self]
      split_ifs <;> simp_all

/-- A waveform outside {0, 1, 2, 3, 8} is one that a guard of `doUpdate`
corrects. -/
theorem out_of_domain_iff (w : Int) :
    w ∉ [0, 1, 2, 3, 8] ↔ ((w > 3 ∧ w ≠ 8) ∨ w < 0) := by
  simp only [List.mem_cons, List.mem_singleton, List.mem_nil_iff, or_false]
  omega

/-! ## `doUpdate`: further properties -/

/-- C11: for every descriptor whose `waveform_mode` is not in {0, 1, 2, 3, 8}
and whose `update_mode` is 0, whatever its region, `doUpdate` calls
`ClearGhosting` exactly once and then `DrawRaw` with waveform 3 and
flags 0. -/
theorem doUpdate_out_of_domain_partial (fb : World) (s : swtfb_update)
    (hw : s.mdata.update.waveform_mode ∉ [0, 1, 2, 3, 8])
    (hu : s.mdata.update.update_mode = 0) :
    (doUpdate fb s).trace = fb.trace ++
      [Call.ClearGhosting,
       Call.DrawRaw s.mdata.update.update_region.left s.mdata.update.update_region.top
        s.mdata.update.update_region.width s.mdata.update.update_region.height 3 0] := by
  have hc := (out_of_domain_iff _).1 hw
  rw [doUpdate_trace]
  simp [hc, hu]

/-- Witness for C11: `waveform_mode = -1`, `update_mode = 0` on region
(0, 0, 100, 50). -/
theorem doUpdate_out_of_domain_partial_witness :
    (doUpdate World.boot (updateMsg 2 ⟨⟨0, 0, 100, 50⟩, -1, 0, 0⟩)).trace =
      [Call.ClearGhosting, Call.DrawRaw 0 0 100 50 3 0] :=
  doUpdate_out_of_domain_partial World.boot (updateMsg 2 ⟨⟨0, 0, 100, 50⟩, -1, 0, 0⟩)
    (by decide) rfl

/-- C12: for every region-update descriptor, `doUpdate` calls `DrawRaw`
exactly once (preceded by at most one `ClearGhosting`), and the left, top,
width and height it passes are those of the descriptor's `update_region`,
unchanged; replacing `update_marker` by any other value changes nothing in
what `doUpdate` does. -/
theorem doUpdate_region_untouched (fb : World) (s : swtfb_update) :
    (∃ waveform flags,
      (doUpdate fb s).trace = fb.trace ++
        [Call.DrawRaw s.mdata.update.update_region.left s.mdata.update.update_region.top
          s.mdata.update.update_region.width s.mdata.update.update_region.height
          waveform flags] ∨
      (doUpdate fb s).trace = fb.trace ++
        [Call.ClearGhosting,
         Call.DrawRaw s.mdata.update.update_region.left s.mdata.update.update_region.top
          s.mdata.update.update_region.width s.mdata.update.update_region.height
          waveform flags]) ∧
    ∀ m : Int, doUpdate fb (s.withMarker m) = doUpdate fb s := by
  constructor
  · obtain ⟨waveform, flags, h⟩ : ∃ waveform flags, (doUpdate fb s).trace = fb.trace ++
        (if (s.mdata.update.waveform_mode > 3 ∧ s.mdata.update.waveform_mode ≠ 8) ∨
            s.mdata.update.waveform_mode < 0 then [Call.ClearGhosting] else []) ++
        [Call.DrawRaw s.mdata.update.update_region.left s.mdata.update.update_region.top
          s.mdata.update.update_region.width s.mdata.update.update_region.height
          waveform flags] := ⟨_, _, doUpdate_trace fb s⟩
    refine ⟨waveform, flags, ?_⟩
    rw [h]
    split_ifs
    · right; simp
    · left; simp
  · intro m
    rfl

/-- C13: for every region-update descriptor, the flags `doUpdate` passes to
`DrawRaw` are one of 0, 1, 3, 4: bit2 is never set together with bit0 or
bit1, and bit1 is never set without bit0. -/
theorem doUpdate_flags_range (fb : World) (s : swtfb_update) :
    ∃ pre waveform flags,
      (doUpdate fb s).trace = fb.trace ++ pre ++
        [Call.DrawRaw s.mdata.update.update_region.left s.mdata.update.update_region.top
          s.mdata.update.update_region.width s.mdata.update.update_region.height
          waveform flags] ∧
      (pre = [] ∨ pre = [Call.ClearGhosting]) ∧
      flags ∈ [0, 1, 3, 4] ∧
      (Int.land flags 4 = 0 ∨ Int.land flags 3 = 0) ∧
      (Int.land flags 2 = 0 ∨ Int.land flags 1 = 1) := by
  refine ⟨_, _, _, doUpdate_trace fb s, ?_, ?_⟩
  · split_ifs
    · exact Or.inr rfl
    · exact Or.inl rfl
  · have hm : s.mdata.update.update_mode % 2 = 0 ∨ s.mdata.update.update_mode % 2 = 1 := by
      omega
    have bits : ∀ f : Int, f = 0 ∨ f = 1 ∨ f = 3 ∨ f = 4 →
        f ∈ [0, 1, 3, 4] ∧ (Int.land f 4 = 0 ∨ Int.land f 3 = 0) ∧
          (Int.land f 2 = 0 ∨ Int.land f 1 = 1) := by
      intro f hf
      rcases hf with h | h | h | h <;> subst h <;> decide
    apply bits
    split_ifs <;> omega

/-- C14: the flag decisions are taken on the corrected waveform.  For every
descriptor whose `waveform_mode` is not in {0, 1, 2, 3, 8}: the run on the
same descriptor with `waveform_mode` replaced by 3 makes one `DrawRaw` call,
and the run on the descriptor itself makes one `ClearGhosting` call followed
by a `DrawRaw` call with the same six arguments; the waveform is 3, the flags
are never 4, and with `left = 0`, `top > 1800` and `update_mode = 1` the
flags are 3. -/
theorem doUpdate_corrected_as_three (fb : World) (s : swtfb_update)
    (hw : s.mdata.update.waveform_mode ∉ [0, 1, 2, 3, 8]) :
    ∃ flags,
      (doUpdate fb (s.withWaveform 3)).trace = fb.trace ++
        [Call.DrawRaw s.mdata.update.update_region.left s.mdata.update.update_region.top
          s.mdata.update.update_region.width s.mdata.update.update_region.height 3 flags] ∧
      (doUpdate fb s).trace = fb.trace ++
        [Call.ClearGhosting,
         Call.DrawRaw s.mdata.update.update_region.left s.mdata.update.update_region.top
          s.mdata.update.update_region.width s.mdata.update.update_region.height 3 flags] ∧
      flags ≠ 4 ∧
      (s.mdata.update.update_region.left = 0 ∧ s.mdata.update.update_region.top > 1800 ∧
        s.mdata.update.update_mode = 1 → flags = 3) := by
  have hc := (out_of_domain_iff _).1 hw
  refine ⟨if s.mdata.update.update_region.left = 0 ∧ s.mdata.update.update_region.top > 1800 ∧
      s.mdata.update.update_mode = 1 then 3 else s.mdata.update.update_mode % 2, ?_, ?_, ?_, ?_⟩
  · rw [doUpdate_trace]
    simp [swtfb_update.withWaveform]
  · rw [doUpdate_trace]
    simp [hc]
  · split_ifs <;> omega
  · intro h
    simp [h]

/-- Witness for C14: `waveform_mode = 7` at the bottom of the screen with
`update_mode = 1` gives `ClearGhosting` and `DrawRaw(0, 1850, 1404, 10, 3, 3)`,
and the same descriptor with `waveform_mode = 3` gives that `DrawRaw` call
alone. -/
theorem doUpdate_corrected_as_three_witness :
    ∃ flags,
      (doUpdate World.boot (updateMsg 2
          ⟨{ top := 1850, left := 0, width := 1404, height := 10 }, 3, 1, 0⟩)).trace =
        [Call.DrawRaw 0 1850 1404 10 3 flags] ∧
      (doUpdate World.boot (updateMsg 2
          ⟨{ top := 1850, left := 0, width := 1404, height := 10 }, 7, 1, 0⟩)).trace =
        [Call.ClearGhosting, Call.DrawRaw 0 1850 1404 10 3 flags] ∧
      flags ≠ 4 ∧ flags = 3 :=
  let ⟨flags, h3, h7, hne, hsync⟩ := doUpdate_corrected_as_three World.boot (updateMsg 2
    ⟨{ top := 1850, left := 0, width := 1404, height := 10 }, 7, 1, 0⟩) (by decide)
  ⟨flags, h3, h7, hne, hsync ⟨rfl, by decide, rfl⟩⟩

/-- C15: for every descriptor whose `update_mode` is neither 0 nor 1,
whatever its `waveform_mode` and region, the flags `doUpdate` passes to
`DrawRaw` are exactly `update_mode & 1`: neither sync heuristic and not the
fast-draw override applies. -/
theorem doUpdate_flags_low_bit (fb : World) (s : swtfb_update)
    (h0 : s.mdata.update.update_mode ≠ 0) (h1 : s.mdata.update.update_mode ≠ 1) :
    ∃ pre waveform,
      (doUpdate fb s).trace = fb.trace ++ pre ++
        [Call.DrawRaw s.mdata.update.update_region.left s.mdata.update.update_region.top
          s.mdata.update.update_region.width s.mdata.update.update_region.height
          waveform (Int.land s.mdata.update.update_mode 1)] ∧
      (pre = [] ∨ pre = [Call.ClearGhosting]) := by
  refine ⟨if (s.mdata.update.waveform_mode > 3 ∧ s.mdata.update.waveform_mode ≠ 8) ∨
      s.mdata.update.waveform_mode < 0 then [Call.ClearGhosting] else [],
    if (s.mdata.update.waveform_mode > 3 ∧ s.mdata.update.waveform_mode ≠ 8) ∨
      s.mdata.update.waveform_mode < 0 then 3 else s.mdata.update.waveform_mode, ?_, ?_⟩
  · rw [doUpdate_trace, land_one_eq_emod]
    simp only [h0, h1, and_false, if_false]
  · split_ifs
    · exact Or.inr rfl
    · exact Or.inl rfl

/-- Witness for C15: `waveform_mode = 0` with `update_mode = 3` yields
flags 1, and `waveform_mode = 1` with `update_mode = 2` yields flags 0. -/
theorem doUpdate_flags_low_bit_witness :
    (∃ pre waveform,
      (doUpdate World.boot (updateMsg 2 ⟨⟨0, 0, 100, 50⟩, 0, 3, 0⟩)).trace =
        World.boot.trace ++ pre ++ [Call.DrawRaw 0 0 100 50 waveform 1] ∧
      (pre = [] ∨ pre = [Call.ClearGhosting])) ∧
    (∃ pre waveform,
      (doUpdate World.boot (updateMsg 2 ⟨⟨0, 0, 100, 50⟩, 1, 2, 0⟩)).trace =
        World.boot.trace ++ pre ++ [Call.DrawRaw 0 0 100 50 waveform 0] ∧
      (pre = [] ∨ pre = [Call.ClearGhosting])) :=
  ⟨doUpdate_flags_low_bit World.boot (updateMsg 2 ⟨⟨0, 0, 100, 50⟩, 0, 3, 0⟩)
      (by decide) (by decide),
   doUpdate_flags_low_bit World.boot (updateMsg 2 ⟨⟨0, 0, 100, 50⟩, 1, 2, 0⟩)
      (by decide) (by decide)⟩

end Rm2fb
